import Mathlib

/- Verification of the paged-memory simulator in src/ptsim.c.

The simulated RAM `unsigned char mem[MEM_SIZE]` is modelled as a total
function from addresses to stored values; each C assignment to `mem`
becomes a functional update `wr`.  All functions of the source that the
claims concern are translated below, keeping the source's names,
constants and control flow (including the exact do-while loop of
`allocate_page` and the 256-iteration loop of `kill_process`). -/

set_option maxRecDepth 100000

def PAGE_SIZE : Nat := 256
def PAGE_COUNT : Nat := 64
def PAGE_SHIFT : Nat := 8
def PTP_OFFSET : Nat := 64
def MEM_SIZE : Nat := 16384

/-- Simulated RAM, `unsigned char mem[MEM_SIZE]`: a total map from address
to stored value.  The C array can only hold bytes; theorems ranging over
arbitrary states take `byteState` as a hypothesis where that matters. -/
abbrev Mem : Type := Nat → Nat

/-- One store `mem[i] = v`. -/
def wr (S : Mem) (i v : Nat) : Mem := fun j => if j = i then v else S j

/-- Every cell holds a byte value, as the C `unsigned char` array does. -/
def byteState (S : Mem) : Prop := ∀ i, S i < 256

/-- C `get_address(page, offset)`: `(page << PAGE_SHIFT) | offset`. -/
def get_address (page offset : Nat) : Nat := (page <<< PAGE_SHIFT) ||| offset

/-- C `initialize_mem()`: zero the whole store, then mark page 0
allocated (`mem[get_address(0, 0)] = 1`). -/
def initialize_mem : Mem := wr (fun _ => 0) (get_address 0 0) 1

/-- C `get_page_table(proc_num)`: read the directory entry at
`get_address(0, PTP_OFFSET + proc_num)`. -/
def get_page_table (S : Mem) (proc_num : Nat) : Nat :=
  S (get_address 0 (PTP_OFFSET + proc_num))

/-- The do-while loop of C `allocate_page`: pre-increment `map_entry`,
test `mem[map_entry] == 0`, and continue while `map_entry < PAGE_COUNT`
and nothing was found yet.  Because the increment happens before the
bound test, the scan visits indices `1 .. PAGE_COUNT` inclusive — one
byte past the free map.  `fuel` is a structural bound on the number of
iterations; `PAGE_COUNT` iterations are always enough because the loop
increments `map_entry` each step and stops at `PAGE_COUNT`. -/
def allocScan (S : Mem) : Nat → Nat → Option Nat
  | _, 0 => none
  | map_entry, fuel + 1 =>
    if S (map_entry + 1) = 0 then some (map_entry + 1)
    else if map_entry + 1 < PAGE_COUNT then allocScan S (map_entry + 1) fuel
    else none

/-- C `allocate_page()`: run the scan from `map_entry = 0`; if a zero
free-map byte was found at index `free_page`, set `mem[free_page] = 1`
and return `free_page`, else return the sentinel `0xff`. -/
def allocate_page (S : Mem) : Mem × Nat :=
  match allocScan S 0 PAGE_COUNT with
  | none => (S, 0xff)
  | some free_page => (wr S free_page 1, free_page)

/-- C `deallocate_page(page_number)`: `mem[page_number] = 0`. -/
def deallocate_page (S : Mem) (page_number : Nat) : Mem := wr S page_number 0

/-- Outcome of `new_process`, mirroring its two `printf`+`return` OOM
exits: success, OOM while allocating the page table, or OOM while
allocating the data page of index `i`. -/
inductive CreateResult : Type
  | ok : CreateResult
  | oomPageTable : CreateResult
  | oomDataPage : Nat → CreateResult
  deriving DecidableEq

/-- The data-page loop of C `new_process`: for `i` from the given start
while `remaining` iterations are left, allocate a page; on the `0xff`
sentinel stop with `oomDataPage i`, otherwise record the page at
`mem[get_address(page_table_page, i)]` and continue. -/
def allocData (page_table_page : Nat) : Mem → Nat → Nat → Mem × CreateResult
  | S, _, 0 => (S, CreateResult.ok)
  | S, i, remaining + 1 =>
    let A := allocate_page S
    if A.2 = 0xff then (A.1, CreateResult.oomDataPage i)
    else allocData page_table_page
      (wr A.1 (get_address page_table_page i) A.2) (i + 1) remaining

/-- C `new_process(proc_num, page_count)`: allocate the page-table page
(abort with `oomPageTable` on the sentinel), record it in the directory
at `mem[PTP_OFFSET + proc_num]`, then run the data-page loop. -/
def new_process (proc_num page_count : Nat) (S : Mem) : Mem × CreateResult :=
  let A := allocate_page S
  if A.2 = 0xff then (S, CreateResult.oomPageTable)
  else allocData A.2 (wr A.1 (PTP_OFFSET + proc_num) A.2) 0 page_count

/-- C `kill_process(proc_num)`: read and clear the directory entry, then
for `i` in `0..255` deallocate `mem[get_address(page_table_page, i)]`
whenever that byte is nonzero, and finally deallocate the page-table
page itself.  There is no guard for a zero directory entry. -/
def kill_process (proc_num : Nat) (S : Mem) : Mem :=
  let page_table_page := S (proc_num + PTP_OFFSET)
  let S1 := wr S (proc_num + PTP_OFFSET) 0
  let S2 := (List.range 256).foldl
    (fun T i =>
      if T (get_address page_table_page i) ≠ 0 then
        deallocate_page T (T (get_address page_table_page i))
      else T) S1
  deallocate_page S2 page_table_page

/-- C `get_physical_addr(proc_num, v_addr)`: directory lookup, then
page-table lookup, then recombination with the offset.  Purely a read;
the source performs no memory writes here. -/
def get_physical_addr (proc_num v_addr : Nat) (S : Mem) : Nat :=
  let page_table_page := S (proc_num + PTP_OFFSET)
  let virt_page := v_addr >>> PAGE_SHIFT
  let physical_page := S (get_address page_table_page virt_page)
  let offset := v_addr &&& 255
  get_address physical_page offset

/-- C `store_value(proc_num, v_addr, value)`: translate, then
`mem[p_addr] = value` (the `unsigned char` cell truncates the stored
value modulo 256); also returns the physical address it printed. -/
def store_value (proc_num v_addr value : Nat) (S : Mem) : Mem × Nat :=
  let p_addr := get_physical_addr proc_num v_addr S
  (wr S p_addr (value % 256), p_addr)

/-- C `load_value(proc_num, virt_addr)`: translate, read the byte, and
print it; the function performs no memory writes, so the returned state
is the input state. -/
def load_value (proc_num v_addr : Nat) (S : Mem) : Mem × Nat :=
  let p_addr := get_physical_addr proc_num v_addr S
  (S, S p_addr)

/-- A state in which every free-map byte for pages `1..63` is nonzero:
pages `1..64` marked allocated, everything else zero.  Used to exercise
the exhausted path of `allocate_page`. -/
def c8full : Mem := fun i => if 1 ≤ i ∧ i ≤ PAGE_COUNT then 1 else 0

/-- A state, reached from the fresh store by `new_process(1, 61)` then
`new_process(2, 0)`, in which every free-map byte for pages `1..63` is
nonzero while the directory byte of process 0 (offset 64) is still 0. -/
def c1state : Mem := (new_process 2 0 (new_process 1 61 initialize_mem).1).1

/-- C4 run: `new_process(1, 64)` on the fresh store. -/
def c4run : Mem × CreateResult := new_process 1 64 initialize_mem

/-- C3 counterexample state: create(0,1) on the fresh store (page table
page 1, data page 2), then `store_value(0, 256, 0)`: virtual page 1 is
unmapped, so the store resolves to physical address 0 and overwrites the
free-map byte of page 0. -/
def c3state : Mem := (store_value 0 256 0 (new_process 0 1 initialize_mem).1).1

/-- C5 counterexample pre-state: create(0,1); store(0,1,1) (which plants
the byte 1 at index 1 of page 2); destroy(0); create(1,0) (whose page
table is page 1).  Free pages: everything except 0 and 1. -/
def c5pre : Mem :=
  (new_process 1 0 (kill_process 0
    (store_value 0 1 1 (new_process 0 1 initialize_mem).1).1)).1

/-- C5 counterexample post-state: from `c5pre`, create(2,1) (page table
page 2, data page 3, no OOM) immediately followed by destroy(2). -/
def c5post : Mem := kill_process 2 (new_process 2 1 c5pre).1

/-- C6 counterexample state: create(0,1); destroy(0); create(1,0) (page
table page 1); then `store_value(0, 5, 1)` through the now-dead process 0
(directory 0, so page 0 is read as its page table and `mem[0] = 1` as the
physical page), which writes the byte 1 into index 5 of page 1 — a forged
page-table entry mapping virtual page 5 of process 1 to physical page 1,
the page table itself. -/
def c6state : Mem :=
  (store_value 0 5 1
    (new_process 1 0 (kill_process 0 (new_process 0 1 initialize_mem).1)).1).1

/-- The state after `new_process(0, 1)` on the fresh store: page table
page 1 (directory entry of process 0), data page 2 mapped at virtual
page 0. -/
def procState : Mem := (new_process 0 1 initialize_mem).1

-- Sanity checks (spec scenario 1): create(0,2) on a fresh store gives
-- page table page 1, data pages 2 and 3.
example : (new_process 0 2 initialize_mem).2 = CreateResult.ok := by decide
example : (new_process 0 2 initialize_mem).1 (PTP_OFFSET + 0) = 1 := by decide
example : (new_process 0 2 initialize_mem).1 (get_address 1 0) = 2 := by decide
example : (new_process 0 2 initialize_mem).1 (get_address 1 1) = 3 := by decide
example : (store_value 0 0 42 (new_process 0 2 initialize_mem).1).2 = 512 := by decide
example :
    (load_value 0 0 (store_value 0 0 42 (new_process 0 2 initialize_mem).1).1).2 = 42 := by
  decide

theorem wr_self (S : Mem) (i v : Nat) : wr S i v i = v := by
  simp [wr]

theorem wr_other (S : Mem) (i v j : Nat) (h : j ≠ i) : wr S i v j = S j := by
  simp [wr, h]

theorem left_le_lor (a b : Nat) : a ≤ a ||| b :=
  Nat.le_of_testBit fun i h => by simp [h]

theorem shiftLeft_eight (page : Nat) : page <<< PAGE_SHIFT = 256 * page := by
  rw [Nat.shiftLeft_eq]
  unfold PAGE_SHIFT
  norm_num [Nat.mul_comm]

theorem get_address_eq (page offset : Nat) (h : offset < 256) :
    get_address page offset = 256 * page + offset := by
  have h2 : offset < 2 ^ 8 := by simpa using h
  unfold get_address
  rw [shiftLeft_eight, show 256 * page = 2 ^ 8 * page by norm_num,
    ← Nat.mul_add_lt_is_or h2 page]

theorem le_get_address (page offset : Nat) : 256 * page ≤ get_address page offset := by
  unfold get_address
  rw [← shiftLeft_eight]
  exact left_le_lor _ _

theorem allocScan_bounds (S : Mem) :
    ∀ fuel map_entry free_page,
      allocScan S map_entry fuel = some free_page →
      map_entry + 1 ≤ free_page ∧ free_page ≤ max (map_entry + 1) PAGE_COUNT := by
  intro fuel
  induction fuel with
  | zero => intro e fp h; simp [allocScan] at h
  | succ n ih =>
    intro e fp h
    simp only [allocScan] at h
    by_cases h0 : S (e + 1) = 0
    · rw [if_pos h0] at h
      cases h
      exact ⟨Nat.le_refl _, Nat.le_max_left _ _⟩
    · rw [if_neg h0] at h
      by_cases h1 : e + 1 < PAGE_COUNT
      · rw [if_pos h1] at h
        obtain ⟨ha, hb⟩ := ih (e + 1) fp h
        refine ⟨by omega, ?_⟩
        have hmax : max (e + 1 + 1) PAGE_COUNT = PAGE_COUNT := by
          unfold PAGE_COUNT at h1 ⊢
          omega
        rw [hmax] at hb
        exact Nat.le_trans hb (Nat.le_max_right _ _)
      · rw [if_neg h1] at h
        cases h

/-- Either the scan found nothing (state returned unchanged with the
`0xff` sentinel), or a free page `t`, with `1 ≤ t ≤ 64`, was marked. -/
theorem allocate_page_spec (S : Mem) :
    allocate_page S = (S, 0xff)
    ∨ ∃ t, 1 ≤ t ∧ t ≤ 64 ∧ allocate_page S = (wr S t 1, t) := by
  unfold allocate_page
  cases hs : allocScan S 0 PAGE_COUNT with
  | none => exact Or.inl rfl
  | some fp =>
    obtain ⟨h1, h2⟩ := allocScan_bounds S PAGE_COUNT 0 fp hs
    refine Or.inr ⟨fp, h1, ?_, rfl⟩
    unfold PAGE_COUNT at h2
    omega

theorem allocate_page_snd_ne_zero (S : Mem) : (allocate_page S).2 ≠ 0 := by
  rcases allocate_page_spec S with h | ⟨t, h1, h2, h3⟩
  · rw [h]; simp
  · rw [h3]; omega

theorem allocate_page_snd_le (S : Mem) (h : (allocate_page S).2 ≠ 0xff) :
    1 ≤ (allocate_page S).2 ∧ (allocate_page S).2 ≤ 64 := by
  rcases allocate_page_spec S with hs | ⟨t, h1, h2, h3⟩
  · rw [hs] at h; simp at h
  · rw [h3]; exact ⟨h1, h2⟩

theorem allocate_page_frame (S : Mem) (a : Nat) (ha : a = 0 ∨ 64 < a) :
    (allocate_page S).1 a = S a := by
  rcases allocate_page_spec S with h | ⟨t, h1, h2, h3⟩
  · rw [h]
  · rw [h3]
    exact wr_other _ _ _ _ (by omega)

theorem byteState_wr (S : Mem) (i v : Nat) (hb : byteState S) (hv : v < 256) :
    byteState (wr S i v) := by
  intro j
  by_cases h : j = i
  · rw [h, wr_self]; exact hv
  · rw [wr_other _ _ _ _ h]; exact hb j

theorem init_mem_byteState : byteState initialize_mem := by
  intro i
  unfold initialize_mem
  by_cases h : i = get_address 0 0
  · rw [h, wr_self]; omega
  · rw [wr_other _ _ _ _ h]; omega

theorem allocate_page_byteState (S : Mem) (hb : byteState S) :
    byteState (allocate_page S).1 := by
  rcases allocate_page_spec S with h | ⟨t, h1, h2, h3⟩
  · rw [h]; exact hb
  · rw [h3]; exact byteState_wr _ _ _ hb (by omega)

theorem allocData_frame (t : Nat) :
    ∀ remaining S i a, (a = 0 ∨ 64 < a) →
      (∀ j, i ≤ j → j < i + remaining → a ≠ get_address t j) →
      (allocData t S i remaining).1 a = S a := by
  intro remaining
  induction remaining with
  | zero => intro S i a _ _; rfl
  | succ n ih =>
    intro S i a ha hj
    simp only [allocData]
    by_cases hoom : (allocate_page S).2 = 0xff
    · rw [if_pos hoom]
      exact allocate_page_frame S a ha
    · rw [if_neg hoom]
      rw [ih _ (i + 1) a ha fun j hj1 hj2 => hj j (by omega) (by omega)]
      rw [wr_other _ _ _ _ (hj i (Nat.le_refl _) (by omega))]
      exact allocate_page_frame S a ha

theorem allocData_byteState (t : Nat) :
    ∀ remaining S i, byteState S → byteState (allocData t S i remaining).1 := by
  intro remaining
  induction remaining with
  | zero => intro S i hb; exact hb
  | succ n ih =>
    intro S i hb
    simp only [allocData]
    by_cases hoom : (allocate_page S).2 = 0xff
    · rw [if_pos hoom]
      exact allocate_page_byteState S hb
    · rw [if_neg hoom]
      apply ih
      apply byteState_wr _ _ _ (allocate_page_byteState S hb)
      have := allocate_page_snd_le S hoom
      omega

theorem new_process_frame (S : Mem) (p n a : Nat) (hp : p < 192)
    (ha : a = 0 ∨ 256 ≤ a)
    (hpt : ∀ t j, 1 ≤ t → t ≤ 64 → j < n → a ≠ get_address t j) :
    (new_process p n S).1 a = S a := by
  have ha' : a = 0 ∨ 64 < a := by omega
  unfold new_process
  by_cases hoom : (allocate_page S).2 = 0xff
  · rw [if_pos hoom]
  · rw [if_neg hoom]
    obtain ⟨ht1, ht2⟩ := allocate_page_snd_le S hoom
    rw [allocData_frame _ _ _ _ _ ha'
      fun j hj1 hj2 => hpt _ j ht1 ht2 (by omega)]
    rw [wr_other]
    · exact allocate_page_frame S a ha'
    · unfold PTP_OFFSET
      omega

theorem new_process_byteState (S : Mem) (p n : Nat) (hb : byteState S) :
    byteState (new_process p n S).1 := by
  unfold new_process
  by_cases hoom : (allocate_page S).2 = 0xff
  · rw [if_pos hoom]; exact hb
  · rw [if_neg hoom]
    apply allocData_byteState
    apply byteState_wr _ _ _ (allocate_page_byteState S hb)
    have := allocate_page_snd_le S hoom
    omega

/-- The deallocation loop of `kill_process` keeps every cell a byte and
never writes at any address `≥ 256`, because each deallocation writes at
an index that is itself a byte value read from the store. -/
theorem dealloc_fold_frame (ptp : Nat) :
    ∀ (l : List Nat) (S T : Mem), byteState T → (∀ a, 256 ≤ a → T a = S a) →
      byteState (l.foldl (fun T i =>
          if T (get_address ptp i) ≠ 0 then
            deallocate_page T (T (get_address ptp i))
          else T) T)
      ∧ ∀ a, 256 ≤ a →
        (l.foldl (fun T i =>
          if T (get_address ptp i) ≠ 0 then
            deallocate_page T (T (get_address ptp i))
          else T) T) a = S a := by
  intro l
  induction l with
  | nil => intro S T hb hag; exact ⟨hb, hag⟩
  | cons x xs ih =>
    intro S T hb hag
    simp only [List.foldl_cons]
    apply ih
    · by_cases h : T (get_address ptp x) ≠ 0
      · rw [if_pos h]
        exact byteState_wr _ _ _ hb (by omega)
      · rw [if_neg h]; exact hb
    · intro a ha
      by_cases h : T (get_address ptp x) ≠ 0
      · rw [if_pos h]
        unfold deallocate_page
        rw [wr_other]
        · exact hag a ha
        · have := hb (get_address ptp x)
          omega
      · rw [if_neg h]; exact hag a ha

/-- `kill_process` never writes at any address `≥ 256`: all its writes
(the directory byte, free-map bytes and the page-table-page byte) land
inside page 0. -/
theorem kill_process_high_frame (S : Mem) (p a : Nat)
    (hb : byteState S) (hp : p < 192) (ha : 256 ≤ a) :
    kill_process p S a = S a := by
  unfold kill_process
  have hb1 : byteState (wr S (p + PTP_OFFSET) 0) := byteState_wr _ _ _ hb (by omega)
  have hag : ∀ b, 256 ≤ b → wr S (p + PTP_OFFSET) 0 b = S b := by
    intro b hbb
    apply wr_other
    unfold PTP_OFFSET
    omega
  obtain ⟨hbF, hagF⟩ := dealloc_fold_frame (S (p + PTP_OFFSET)) (List.range 256)
    S (wr S (p + PTP_OFFSET) 0) hb1 hag
  unfold deallocate_page
  rw [wr_other]
  · exact hagF a ha
  · have := hb (p + PTP_OFFSET)
    omega

/-- C1: in `c1state` every page `1..PAGE_COUNT-1` is allocated, so the
spec requires `allocate()` to return the `0xff` sentinel without touching
anything outside the free map; instead the scan runs one byte past the
free map, finds the zero directory byte of process 0 at offset 64,
returns 64 as an allocated "page", and sets that directory byte to 1. -/
theorem allocate_page_scans_past_free_map :
    (List.range PAGE_COUNT).map c1state = List.replicate PAGE_COUNT 1
    ∧ c1state PAGE_COUNT = 0
    ∧ (allocate_page c1state).2 = PAGE_COUNT
    ∧ (allocate_page c1state).2 ≠ 0xff
    ∧ (allocate_page c1state).1 PAGE_COUNT = 1 := by decide

/-- C2: on the fresh store the directory entry of process 0 is 0, so the
spec requires `destroy(0)` to be a no-op; instead `kill_process` walks
page 0 as if it were a page table and finally deallocates page 0 itself,
changing the free-map byte of page 0 from 1 to 0. -/
theorem kill_process_dead_proc_frees_page_zero :
    initialize_mem (PTP_OFFSET + 0) = 0
    ∧ initialize_mem 0 = 1
    ∧ kill_process 0 initialize_mem 0 = 0 := by decide

/-- C4: on a fresh store `create(1, 64)` is claimed to fail with a
data-page OOM at index 62 after 62 successful data-page allocations; the
code instead "succeeds" at index 62 (the past-the-free-map scan hands it
64, the directory byte of process 0, as a page) and reports the data-page
OOM only at index 63, leaving page-table entry 62 set to 64 and the
directory byte of process 0 corrupted to 1. -/
theorem new_process_oom_index_shifted :
    c4run.2 = CreateResult.oomDataPage 63
    ∧ c4run.2 ≠ CreateResult.oomDataPage 62
    ∧ c4run.1 (PTP_OFFSET + 1) = 1
    ∧ c4run.1 (get_address 1 62) = 64
    ∧ c4run.1 (PTP_OFFSET + 0) = 1
    ∧ (new_process 1 63 initialize_mem).2 = CreateResult.ok := by decide

/-- C3 counterexample: the free-map byte of page 0 is 1 after the create
but 0 after a store through an unmapped virtual page, so it does not
remain 1 after every sequence of create/destroy/store/load operations. -/
theorem store_unmapped_clears_page_zero_byte :
    (new_process 0 1 initialize_mem).1 0 = 1 ∧ c3state 0 = 0 := by decide

/-- C5 counterexample: `create(2, 1)` from `c5pre` completes without OOM,
yet the immediately following `destroy(2)` does not restore the free map:
the stale byte 1 at index 1 of the reused page-table page 2 makes destroy
deallocate page 1 — the page table of live process 1 — so the free-map
byte of page 1 drops from 1 to 0. -/
theorem create_destroy_freemap_not_restored :
    (new_process 2 1 c5pre).2 = CreateResult.ok
    ∧ c5pre 1 = 1 ∧ c5post 1 = 0 := by decide

/-- C6 counterexample: in `c6state` virtual page 5 of process 1 is mapped
(its page-table entry is nonzero), yet `store(1, 1285, 7)` followed by
`load(1, 1285)` returns 0, not `7 mod 256`: the store's physical address
is the page-table entry byte itself, so the store retargets the
subsequent load. -/
theorem store_load_aliasing_counterexample :
    c6state (get_address (c6state (1 + PTP_OFFSET)) (1285 >>> PAGE_SHIFT)) ≠ 0
    ∧ (load_value 1 1285 (store_value 1 1285 7 c6state).1).2 = 0
    ∧ (load_value 1 1285 (store_value 1 1285 7 c6state).1).2 ≠ 7 % 256 := by decide

/-- C10: `load_value` (and the `get_physical_addr` translation it
invokes) performs no memory write: the state it returns is its input
state, and its output is the byte at the translated physical address. -/
theorem load_value_preserves_mem (proc_num v_addr : Nat) (S : Mem) :
    (load_value proc_num v_addr S).1 = S
    ∧ (load_value proc_num v_addr S).2 = S (get_physical_addr proc_num v_addr S) :=
  ⟨rfl, rfl⟩

theorem shiftRight_eight (v : Nat) : v >>> PAGE_SHIFT = v / 256 := by
  unfold PAGE_SHIFT
  rw [Nat.shiftRight_eq_div_pow]

theorem and_255 (v : Nat) : v &&& 255 = v % 256 := by
  rw [show (255 : Nat) = 2 ^ 8 - 1 by norm_num, Nat.and_pow_two_sub_one_eq_mod]

/-- Arithmetic form of the translation: page-table page from the
directory byte, page-table entry at byte `256 * ptp + va / 256`, result
`256 * entry + va % 256`. -/
theorem get_physical_addr_eq (S : Mem) (proc_num v_addr : Nat)
    (hv : v_addr < 65536) :
    get_physical_addr proc_num v_addr S
      = 256 * S (256 * S (proc_num + PTP_OFFSET) + v_addr / 256) + v_addr % 256 := by
  simp only [get_physical_addr]
  rw [shiftRight_eight, and_255, get_address_eq _ _ (by omega),
    get_address_eq _ _ (by omega)]

/-- The translation only reads the directory byte and the page-table
entry byte: two states agreeing on those two cells translate alike. -/
theorem get_physical_addr_congr (T S : Mem) (proc_num v_addr : Nat)
    (h1 : T (proc_num + PTP_OFFSET) = S (proc_num + PTP_OFFSET))
    (h2 : T (get_address (S (proc_num + PTP_OFFSET)) (v_addr >>> PAGE_SHIFT))
        = S (get_address (S (proc_num + PTP_OFFSET)) (v_addr >>> PAGE_SHIFT))) :
    get_physical_addr proc_num v_addr T = get_physical_addr proc_num v_addr S := by
  simp only [get_physical_addr]
  rw [h1, h2]

theorem allocate_page_of_sentinel (S : Mem) (h : (allocate_page S).2 = 0xff) :
    allocate_page S = (S, 0xff) := by
  rcases allocate_page_spec S with hs | ⟨t, h1, h2, h3⟩
  · exact hs
  · rw [h3] at h
    simp at h
    omega

/-- The deallocation loop of `kill_process` never writes at address 0:
each of its writes targets an index it just checked to be nonzero. -/
theorem dealloc_fold_zero (ptp : Nat) (l : List Nat) :
    ∀ T : Mem,
      (l.foldl (fun T i =>
        if T (get_address ptp i) ≠ 0 then
          deallocate_page T (T (get_address ptp i))
        else T) T) 0 = T 0 := by
  induction l with
  | nil => intro T; rfl
  | cons x xs ih =>
    intro T
    simp only [List.foldl_cons]
    rw [ih]
    by_cases h : T (get_address ptp x) ≠ 0
    · rw [if_pos h]
      unfold deallocate_page
      exact wr_other _ _ _ _ (by omega)
    · rw [if_neg h]

/-- When the directory entry is nonzero, `kill_process` leaves the
free-map byte of page 0 unchanged: the cleared directory byte is at
offset `≥ 64`, the loop only deallocates nonzero indices, and the final
deallocation targets the nonzero page-table page. -/
theorem kill_process_zero_frame (S : Mem) (p : Nat)
    (hptp : S (p + PTP_OFFSET) ≠ 0) :
    kill_process p S 0 = S 0 := by
  unfold kill_process deallocate_page
  rw [wr_other _ _ _ _ (Ne.symm hptp)]
  exact (dealloc_fold_zero (S (p + PTP_OFFSET)) (List.range 256)
      (wr S (p + PTP_OFFSET) 0)).trans
    (wr_other _ _ _ _ (by unfold PTP_OFFSET; omega))

/-- C3 (amended): the free-map byte of page 0 is 1 after initialization
and every other free-map byte is 0; `allocate_page` never returns page 0
and never changes the byte of page 0; `new_process` preserves it, and
`kill_process` preserves it whenever the process's directory entry is
nonzero.  (The unamended invariant fails: a destroy of a process with a
zero directory entry, or a store resolving to physical address 0, clears
the byte — see the counterexample.) -/
theorem page_zero_byte_invariant_amended :
    initialize_mem 0 = 1
    ∧ (∀ i, 1 ≤ i → i < PAGE_COUNT → initialize_mem i = 0)
    ∧ (∀ S : Mem, (allocate_page S).2 ≠ 0)
    ∧ (∀ S : Mem, (allocate_page S).1 0 = S 0)
    ∧ (∀ (S : Mem) (p n : Nat), p < 192 → (new_process p n S).1 0 = S 0)
    ∧ (∀ (S : Mem) (p : Nat), S (p + PTP_OFFSET) ≠ 0 →
        kill_process p S 0 = S 0) := by
  refine ⟨by decide, by decide, allocate_page_snd_ne_zero, ?_, ?_, ?_⟩
  · intro S
    exact allocate_page_frame S 0 (Or.inl rfl)
  · intro S p n hp
    apply new_process_frame S p n 0 hp (Or.inl rfl)
    intro t j ht1 ht2 hj
    have := le_get_address t j
    omega
  · intro S p h
    exact kill_process_zero_frame S p h

/-- C3 witness: a concrete application of the amended invariant — in the
state after create(0,1) the directory entry of process 0 is nonzero and
destroy(0) preserves the free-map byte of page 0. -/
theorem page_zero_byte_invariant_amended_witness :
    procState (0 + PTP_OFFSET) ≠ 0 ∧ kill_process 0 procState 0 = procState 0 :=
  ⟨by decide,
    page_zero_byte_invariant_amended.2.2.2.2.2 procState 0 (by decide)⟩

/-- C5 (amended): on a fresh store, `create(0, 2)` succeeds allocating
pages 1 (page table), 2 and 3, and the immediately following
`destroy(0)` frees pages 1, 2 and 3, restores the whole free map to the
post-initialization state, and clears directory entry 0. -/
theorem create_destroy_fresh_roundtrip :
    (new_process 0 2 initialize_mem).2 = CreateResult.ok
    ∧ (new_process 0 2 initialize_mem).1 1 = 1
    ∧ (new_process 0 2 initialize_mem).1 2 = 1
    ∧ (new_process 0 2 initialize_mem).1 3 = 1
    ∧ kill_process 0 (new_process 0 2 initialize_mem).1 1 = 0
    ∧ kill_process 0 (new_process 0 2 initialize_mem).1 2 = 0
    ∧ kill_process 0 (new_process 0 2 initialize_mem).1 3 = 0
    ∧ (List.range PAGE_COUNT).map (kill_process 0 (new_process 0 2 initialize_mem).1)
        = (List.range PAGE_COUNT).map initialize_mem
    ∧ kill_process 0 (new_process 0 2 initialize_mem).1 (PTP_OFFSET + 0) = 0 := by
  decide

/-- C6 (amended): `store(p, va, v)` immediately followed by
`load(p, va)` returns `v mod 256` whenever the virtual page of `va` is
mapped AND the resolved physical byte is not the very page-table entry
used by the translation (physical page differs from the page-table page,
or the offset differs from the virtual page index).  Without the second
condition the store rewrites the mapping the load then uses — see the
counterexample. -/
theorem store_load_roundtrip_no_alias (S : Mem) (proc_num v_addr value : Nat)
    (hp : proc_num < 192) (hv : v_addr < 65536)
    (hmap : S (get_address (S (proc_num + PTP_OFFSET)) (v_addr >>> PAGE_SHIFT)) ≠ 0)
    (halias : S (get_address (S (proc_num + PTP_OFFSET)) (v_addr >>> PAGE_SHIFT))
                ≠ S (proc_num + PTP_OFFSET)
              ∨ v_addr &&& 255 ≠ v_addr >>> PAGE_SHIFT) :
    (load_value proc_num v_addr (store_value proc_num v_addr value S).1).2
      = value % 256 := by
  rw [shiftRight_eight, get_address_eq _ _ (by omega)] at hmap halias
  rw [and_255] at halias
  have hpa := get_physical_addr_eq S proc_num v_addr hv
  have h1 : wr S (get_physical_addr proc_num v_addr S) (value % 256)
      (proc_num + PTP_OFFSET) = S (proc_num + PTP_OFFSET) := by
    apply wr_other
    rw [hpa]
    have he : 1 ≤ S (256 * S (proc_num + PTP_OFFSET) + v_addr / 256) := by omega
    have hpo : PTP_OFFSET = 64 := rfl
    omega
  have h2 : wr S (get_physical_addr proc_num v_addr S) (value % 256)
      (get_address (S (proc_num + PTP_OFFSET)) (v_addr >>> PAGE_SHIFT))
      = S (get_address (S (proc_num + PTP_OFFSET)) (v_addr >>> PAGE_SHIFT)) := by
    apply wr_other
    rw [shiftRight_eight, get_address_eq _ _ (by omega), hpa]
    rcases halias with h | h
    · omega
    · omega
  simp only [load_value, store_value]
  rw [get_physical_addr_congr _ S proc_num v_addr h1 h2]
  exact wr_self _ _ _

/-- C6 witness: in the post-create(0,1) state, virtual page 0 of
process 0 is mapped to data page 2 (distinct from page-table page 1), and
store(0,0,300);load(0,0) indeed returns 300 mod 256 = 44. -/
theorem store_load_roundtrip_no_alias_witness :
    (load_value 0 0 (store_value 0 0 300 procState).1).2 = 300 % 256 :=
  store_load_roundtrip_no_alias procState 0 0 300 (by omega) (by omega)
    (by decide) (Or.inl (by decide))

/-- C7: the translation returns
`toAddress(pageTable[va >> 8], va & 0xFF)` — in arithmetic form,
`256 * pt[va / 256] + va % 256` where `pt` is the page referenced by the
process's directory byte — and when the page-table entry is 0 (unmapped)
the result is the bare offset `va % 256`, an address inside page 0. -/
theorem get_physical_addr_formula (S : Mem) (proc_num v_addr : Nat)
    (hv : v_addr < 65536) :
    get_physical_addr proc_num v_addr S
      = 256 * S (256 * S (proc_num + PTP_OFFSET) + v_addr / 256) + v_addr % 256
    ∧ (S (256 * S (proc_num + PTP_OFFSET) + v_addr / 256) = 0 →
        get_physical_addr proc_num v_addr S = v_addr % 256) := by
  refine ⟨get_physical_addr_eq S proc_num v_addr hv, fun h0 => ?_⟩
  rw [get_physical_addr_eq S proc_num v_addr hv, h0]
  omega

/-- C7 witness: translation of virtual address 300 for process 0 on the
fresh store, evaluated through the theorem. -/
theorem get_physical_addr_formula_witness :
    get_physical_addr 0 300 initialize_mem
      = 256 * initialize_mem (256 * initialize_mem (0 + PTP_OFFSET) + 300 / 256)
        + 300 % 256 :=
  (get_physical_addr_formula initialize_mem 0 300 (by omega)).1

/-- C8: when the page-table allocation returns the `0xff` sentinel,
`new_process` aborts reporting the page-table OOM and leaves the store —
in particular the directory entry of the process — exactly as it was. -/
theorem new_process_exhausted_not_created (S : Mem) (proc_num page_count : Nat)
    (h : (allocate_page S).2 = 0xff) :
    new_process proc_num page_count S = (S, CreateResult.oomPageTable)
    ∧ (new_process proc_num page_count S).1 (PTP_OFFSET + proc_num)
        = S (PTP_OFFSET + proc_num) := by
  have hmain : new_process proc_num page_count S = (S, CreateResult.oomPageTable) := by
    simp only [new_process]
    rw [if_pos h]
  exact ⟨hmain, by rw [hmain]⟩

/-- C8 witness: in the fully-allocated state `c8full` the allocator
returns the sentinel and `new_process(3, 5)` leaves the store unchanged
with the page-table OOM report. -/
theorem new_process_exhausted_not_created_witness :
    new_process 3 5 c8full = (c8full, CreateResult.oomPageTable) :=
  (new_process_exhausted_not_created c8full 3 5 (by decide)).1

/-- C9: (a) when the directory entry of a process is nonzero,
`kill_process` never writes to any byte of the page-table page itself
(all its writes are free-map or directory bytes inside page 0), so the
stale mapping entries survive; and (b) a `new_process` requesting `n`
data pages never writes the bytes of its page-table page at indices
`≥ n`, so a create that reuses a stale page as its page table keeps
whatever nonzero entries were left behind at indices it does not
overwrite. -/
theorem kill_preserves_page_table_bytes (S : Mem) (proc_num : Nat)
    (hb : byteState S) (hp : proc_num < 192) :
    (S (proc_num + PTP_OFFSET) ≠ 0 →
      ∀ a, 256 * S (proc_num + PTP_OFFSET) ≤ a →
        a < 256 * S (proc_num + PTP_OFFSET) + 256 →
        kill_process proc_num S a = S a)
    ∧ (∀ n j, n ≤ 256 → (allocate_page S).2 ≠ 0xff → n ≤ j → j < 256 →
        (new_process proc_num n S).1 (get_address (allocate_page S).2 j)
          = S (get_address (allocate_page S).2 j)) := by
  constructor
  · intro hptp a h1 h2
    apply kill_process_high_frame S proc_num a hb hp
    have : 1 ≤ S (proc_num + PTP_OFFSET) := by omega
    omega
  · intro n j hn hok hnj hj
    obtain ⟨ht1, ht2⟩ := allocate_page_snd_le S hok
    apply new_process_frame S proc_num n _ hp
    · right
      have := le_get_address (allocate_page S).2 j
      omega
    · intro t' j' ht1' ht2' hj'
      rw [get_address_eq _ _ (by omega), get_address_eq _ _ (by omega)]
      by_cases he : t' = (allocate_page S).2
      · subst he
        omega
      · omega

/-- C9 witness: in the post-create(0,1) state (directory entry of
process 0 is page 1), destroy(0) leaves the first byte of page 1 — the
stale page-table entry mapping virtual page 0 to page 2 — unchanged. -/
theorem kill_preserves_page_table_bytes_witness :
    procState (0 + PTP_OFFSET) ≠ 0
    ∧ kill_process 0 procState (256 * procState (0 + PTP_OFFSET))
        = procState (256 * procState (0 + PTP_OFFSET)) :=
  ⟨by decide,
    (kill_preserves_page_table_bytes procState 0
        (new_process_byteState initialize_mem 0 1 init_mem_byteState) (by omega)).1
      (by decide) _ (Nat.le_refl _) (by omega)⟩
